import Mathlib

/-!
Verification of the Automata agent-registry core (Registry Central).

The definitions below are a shallow embedding of the TypeScript source:
`SearchService` (search pipeline and scoring), `AuthService`
(execution-key minting), `StatsRepository.incrementFeedbackWeighted`,
`FeedbackService.submitFeedback`, `FraudDetectionService`, and
`QuarantineService` (health report and auto review).  Numbers are
modelled with `ℚ`, timestamps with `ℤ` (milliseconds), and database
tables with in-memory lists.  JavaScript string operations
(`toLowerCase`, `split`, `includes`, `Set`, `Math.round`) are modelled
by the `js*` helpers, faithful on the character ranges the tokenizers
keep (ASCII and Latin-1/Latin-Extended-A letters).
-/

namespace Automata

/-- Models `String.prototype.toLowerCase` on one character, for ASCII
and the Latin range `À-ſ` kept by the tokenizers (other code
points in that range are already lowercase or caseless and are returned
unchanged; `İ` lowers to the two-character sequence `i` + combining dot
exactly as in JS, hence the list result). -/
def jsLowerChar (c : Char) : List Char :=
  let n := c.toNat
  if 65 ≤ n ∧ n ≤ 90 then [Char.ofNat (n + 32)]
  else if (0xC0 ≤ n ∧ n ≤ 0xD6) ∨ (0xD8 ≤ n ∧ n ≤ 0xDE) then [Char.ofNat (n + 32)]
  else if n = 0x130 then [Char.ofNat 0x69, Char.ofNat 0x307]
  else if (0x100 ≤ n ∧ n ≤ 0x136 ∧ n % 2 = 0) then [Char.ofNat (n + 1)]
  else if (0x139 ≤ n ∧ n ≤ 0x147 ∧ n % 2 = 1) then [Char.ofNat (n + 1)]
  else if (0x14A ≤ n ∧ n ≤ 0x176 ∧ n % 2 = 0) then [Char.ofNat (n + 1)]
  else if n = 0x178 then [Char.ofNat 0xFF]
  else if (0x179 ≤ n ∧ n ≤ 0x17D ∧ n % 2 = 1) then [Char.ofNat (n + 1)]
  else [c]

/-- Models `s.toLowerCase()`. -/
def jsToLower (s : String) : String :=
  String.mk (s.data.flatMap jsLowerChar)

/-- The character class `[a-zA-Z0-9À-ſ]` of the main
tokenizer's split regex. -/
def isWordChar (c : Char) : Bool :=
  (('a' ≤ c ∧ c ≤ 'z') ∨ ('A' ≤ c ∧ c ≤ 'Z') ∨ ('0' ≤ c ∧ c ≤ '9')
    ∨ (0xC0 ≤ c.toNat ∧ c.toNat ≤ 0x17F) : Bool)

/-- Splits a character list into maximal runs of characters satisfying
`keep`, dropping separators — the behaviour of `String.prototype.split`
on a separator regex once empty fragments are filtered out (every use in
the source filters them out, by a length bound or by `filter(Boolean)`). -/
def splitRuns (keep : Char → Bool) : List Char → List Char → List String
  | [], acc => if acc.isEmpty then [] else [String.mk acc.reverse]
  | c :: cs, acc =>
    if keep c then splitRuns keep cs (c :: acc)
    else if acc.isEmpty then splitRuns keep cs []
    else String.mk acc.reverse :: splitRuns keep cs []

/-- `s.split(sep)` keeping only nonempty fragments of characters
satisfying `keep`. -/
def jsSplit (keep : Char → Bool) (s : String) : List String :=
  splitRuns keep s.data []

/-- Insertion-order deduplication: the element list of a JS `Set` built
from `l`. -/
def jsSet (l : List String) : List String :=
  l.foldl (fun acc s => if s ∈ acc then acc else acc ++ [s]) []

/-- Models `s.includes(sub)` (contiguous substring test). -/
def jsIncludes (s sub : String) : Bool :=
  decide (sub.data <:+: s.data)

/-- Models `Math.round` (half-up, ties toward `+∞`). -/
def jsRound (q : ℚ) : ℤ := ⌊q + 1/2⌋

/-- Models `Math.round(q * 100) / 100` (rounding to 2 decimals). -/
def jsRound2 (q : ℚ) : ℚ := (jsRound (q * 100) : ℚ) / 100

/-- Models `Math.round(q * 10) / 10` (rounding to 1 decimal). -/
def jsRound1 (q : ℚ) : ℚ := (jsRound (q * 10) : ℚ) / 10

/-- Models the JS coercion `Number(x) || 1`: zero is falsy, so a zero
value is replaced by `1`. -/
def jsOrOne (q : ℚ) : ℚ := if q = 0 then 1 else q

/-- Models JS falsiness of an optional string (`undefined` or `""`). -/
def jsFalsy (o : Option String) : Bool :=
  match o with
  | none => true
  | some s => s.isEmpty

/-! ## Data model (`agent.types.ts`, `schema.sql`) -/

/-- `status ∈ {active, quarantine, banned}`. -/
inductive AgentStatus where
  | active
  | quarantine
  | banned
deriving DecidableEq

/-- A row of `agent_stats`. -/
structure AgentStats where
  agent_id : String
  calls_total : ℕ
  calls_success : ℕ
  avg_latency_ms : ℚ
  avg_rating : ℚ
  last_feedback_at : ℤ
deriving DecidableEq

/-- A row of `agents` (the fields the embedded services read;
`quarantine_reason` text and timestamps of transitions are carried but
their formatted contents are not modelled). -/
structure AgentRow where
  id : String
  name : String
  endpoint : String
  description : String
  caller_id : String
  tags : List String
  intents : List String
  tasks : Option (List String)
  categories : List String
  location_scope : String
  input_schema : Option String
  status : AgentStatus
  quarantine_reason : Option String
deriving DecidableEq

/-- `SearchAgentRequest.intent : string | string[] | undefined`. -/
inductive IntentField where
  | absent
  | single (s : String)
  | multi (l : List String)
deriving DecidableEq

/-- `SearchAgentRequest`. -/
structure SearchAgentRequest where
  intent : IntentField
  categories : List String
  tags : Option (List String)
  location : Option String
  language : Option String
  description : Option String
  limit : Option ℕ
deriving DecidableEq

/-- `SearchAgentResponse` — the record built at the end of
`SearchService.search`. -/
structure SearchAgentResponse where
  id : String
  name : String
  caller_id : String
  endpoint : String
  description : String
  tags : List String
  intents : List String
  tasks : List String
  categories : List String
  location_scope : String
  score : ℚ
  input_schema : Option String
deriving DecidableEq

/-! ## `SearchService` scoring (`search.service.ts`) -/

/-- `SearchService.tokenize`: lowercase, split on
`[^a-zA-Z0-9À-ſ]+`, keep tokens of length ≥ 3; the result is a JS
`Set`, modelled as an insertion-ordered duplicate-free list. -/
def tokenize (text : String) : List String :=
  jsSet ((jsSplit isWordChar (jsToLower text)).filter (fun t => 3 ≤ t.length))

/-- `SearchService.calculateDescriptionScore`. -/
def calculateDescriptionScore (agent : AgentRow) (requestDescription : Option String) : ℚ :=
  match requestDescription with
  | none => 1/2
  | some d =>
    if d.trim = "" then 1/2 else
    let tokens := tokenize d
    if tokens.length = 0 then 0 else
    let agentTokens := jsSet
      (tokenize agent.description
        ++ agent.tags.flatMap (fun t => tokenize t)
        ++ agent.categories.flatMap (fun c => tokenize c))
    let overlap := tokens.countP (fun t => t ∈ agentTokens)
    if overlap = 0 then 0 else
    let norm := min tokens.length 10
    min 1 ((overlap : ℚ) / (norm : ℚ))

/-- `SearchService.calculateHierarchicalScore`: exact intent 1.0, same
first two dot-parts 0.6, same first part 0.3, else 0.0.  Absent parts
compare like JS `undefined === undefined`. -/
def calculateHierarchicalScore (agentIntents : List String) (searchIntent : String) : ℚ :=
  if searchIntent ∈ agentIntents then 1 else
  let searchParts := searchIntent.splitOn "."
  agentIntents.foldl
    (fun best agentIntent =>
      let agentParts := agentIntent.splitOn "."
      let best :=
        if searchParts.get? 0 = agentParts.get? 0 ∧ searchParts.get? 1 = agentParts.get? 1
        then max best (6/10) else best
      if searchParts.get? 0 = agentParts.get? 0 then max best (3/10) else best)
    0

/-- The sliding 3-character windows of a character list. -/
def trigramWindows : List Char → List String
  | a :: b :: c :: rest => String.mk [a, b, c] :: trigramWindows (b :: c :: rest)
  | _ => []

/-- `SearchService.getTrigrams`: pad with two leading and one trailing
space, slide 3-character windows, collect into a `Set`. -/
def getTrigrams (s : String) : List String :=
  let padded := "  " ++ s ++ " "
  jsSet (trigramWindows padded.data)

/-- `SearchService.trigramSimilarity`: Jaccard similarity of two
trigram sets. -/
def trigramSimilarity (set1 set2 : List String) : ℚ :=
  let intersection := set1.filter (fun x => x ∈ set2)
  let union := jsSet (set1 ++ set2)
  if union.length > 0 then (intersection.length : ℚ) / (union.length : ℚ) else 0

/-- The whitespace class of the JS regex `\s` (on the characters that
occur in intent strings). -/
def jsWhitespace (c : Char) : Bool :=
  c = ' ' ∨ c = '\t' ∨ c = '\n' ∨ c = '\r' ∨ c.toNat = 0x0B ∨ c.toNat = 0x0C ∨ c.toNat = 0xA0

/-- The split class of `/[.\s_-]+/` used by
`calculateStringSimilarity` (a kept character is one *not* in it). -/
def isSimTokenChar (c : Char) : Bool :=
  ¬(c = '.' ∨ c = '_' ∨ c = '-' ∨ jsWhitespace c)

/-- `SearchService.calculateStringSimilarity`: token Jaccard plus a
capped trigram bonus between distinct tokens. -/
def calculateStringSimilarity (str1 str2 : String) : ℚ :=
  let tokens1 := (jsSplit isSimTokenChar (jsToLower str1)).filter (fun t => t.length > 2)
  let tokens2 := (jsSplit isSimTokenChar (jsToLower str2)).filter (fun t => t.length > 2)
  if tokens1.length = 0 ∨ tokens2.length = 0 then 0 else
  let set1 := jsSet tokens1
  let set2 := jsSet tokens2
  let intersection := set1.filter (fun x => x ∈ set2)
  let union := jsSet (set1 ++ set2)
  let jaccardScore := if union.length > 0 then (intersection.length : ℚ) / (union.length : ℚ) else 0
  let trigramBonus := tokens1.foldl
    (fun b t1 => tokens2.foldl
      (fun b t2 =>
        if t1 ≠ t2 then max b (trigramSimilarity (getTrigrams t1) (getTrigrams t2) * (3/10)) else b)
      b)
    0
  min (jaccardScore + trigramBonus) 1

/-- `SearchService.calculateTrigramScore`: best string similarity over
the agent's intents, capped at 1. -/
def calculateTrigramScore (agentIntents : List String) (searchIntent : String) : ℚ :=
  if searchIntent = "" ∨ agentIntents.isEmpty then 0 else
  min (agentIntents.foldl (fun m ai => max m (calculateStringSimilarity searchIntent ai)) 0) 1

/-- `SearchService.calculateIntentScore`: 0.5 when no intent (or the
falsy empty string), otherwise the best of hierarchical and
0.85-discounted trigram scores over the requested intents. -/
def calculateIntentScore (agentIntents : List String) (searchIntent : IntentField) : ℚ :=
  let bestOver (searchIntents : List String) : ℚ :=
    searchIntents.foldl
      (fun best singleIntent =>
        let hierarchicalScore := calculateHierarchicalScore agentIntents singleIntent
        let trigramScore := calculateTrigramScore agentIntents singleIntent
        max best (max hierarchicalScore (trigramScore * (85/100))))
      0
  match searchIntent with
  | .absent => 1/2
  | .single s => if s = "" then 1/2 else bestOver [s]
  | .multi l => bestOver l

/-- The `,`/`/` splitting, trimming, lowercasing and
empty-dropping applied to both locations in `calculateGeoScore`. -/
def geoParts (s : String) : List String :=
  ((jsSplit (fun c => ¬(c = ',' ∨ c = '/')) s).map (fun p => jsToLower p.trim)).filter
    (fun p => p ≠ "")

/-- `SearchService.calculateGeoScore`.  With no search location or no
agent location: 0.3 for `"Global"`, otherwise 0.5.  A `"Global"` agent
scores 0.3.  Otherwise city match 1.0, state match 0.6, country match
0.3, floor 0.2. -/
def calculateGeoScore (agentLocation : String) (searchLocation : Option String) : ℚ :=
  if jsFalsy searchLocation ∨ agentLocation = "" then
    (if agentLocation = "Global" then 3/10 else 1/2)
  else
  if agentLocation = "Global" then 3/10 else
  let searchVariants := geoParts (searchLocation.getD "")
  let agentParts := geoParts agentLocation
  if searchVariants.isEmpty ∨ agentParts.isEmpty then 1/5 else
  let agentCity := agentParts.headD ""
  let agentState := agentParts.get? 1
  let agentCountry := agentParts.getLastD ""
  searchVariants.foldl
    (fun best variant =>
      let stateHit : Bool :=
        match agentState with
        | some st => decide (variant = st) || jsIncludes st variant || jsIncludes variant st
        | none => false
      if variant = agentCity then max best 1
      else if stateHit then max best (6/10)
      else if variant = agentCountry ∨ jsIncludes agentCountry variant ∨ jsIncludes variant agentCountry
           then max best (3/10)
      else best)
    (1/5)

/-- `SearchService.calculateListSimilarity` (used for categories and
tags): fraction of search tokens that equal, contain or are contained
in some agent token. -/
def calculateListSimilarity (agentList searchList : List String) : ℚ :=
  if searchList.isEmpty then 1 else
  if agentList.isEmpty then 0 else
  let agentTokens := agentList.flatMap (fun item => tokenize item)
  let searchTokens := searchList.flatMap (fun item => tokenize item)
  if searchTokens.isEmpty then 1/2 else
  let matchCount := searchTokens.countP
    (fun searchToken => agentTokens.any
      (fun agentToken =>
        agentToken = searchToken ∨ jsIncludes agentToken searchToken
          ∨ jsIncludes searchToken agentToken))
  (matchCount : ℚ) / (searchTokens.length : ℚ)

/-- `SearchService.calculateLatencyScore` buckets. -/
def calculateLatencyScore (avgLatencyMs : ℚ) : ℚ :=
  if avgLatencyMs ≤ 500 then 1
  else if avgLatencyMs ≤ 1500 then 7/10
  else if avgLatencyMs ≤ 3000 then 4/10
  else 2/10

/-- `SearchService.calculateScore`: the nine-factor weighted sum, with
the quarantine penalty.  `fraudPercentage` is the value
`FraudDetectionService.calculateFraudPercentage` returns for this
agent. -/
def calculateScore (agent : AgentRow) (stats : Option AgentStats) (fraudPercentage : ℚ)
    (request : SearchAgentRequest) : ℚ :=
  let intentScore := calculateIntentScore agent.intents request.intent
  let descriptionScore := calculateDescriptionScore agent request.description
  let geoScore := calculateGeoScore agent.location_scope request.location
  let categoryScore := calculateListSimilarity agent.categories request.categories
  let tagScore := calculateListSimilarity agent.tags (request.tags.getD [])
  let successRate : ℚ :=
    match stats with
    | some st => if st.calls_total > 0 then (st.calls_success : ℚ) / (st.calls_total : ℚ) else 0
    | none => 0
  let ratingScore : ℚ :=
    match stats with
    | some st => if st.calls_total > 0 then st.avg_rating else 0
    | none => 0
  let latencyScore : ℚ :=
    match stats with
    | some st => if st.calls_total > 0 then calculateLatencyScore st.avg_latency_ms else 0
    | none => 0
  let fraudScore := 1 - fraudPercentage / 100
  let finalScore :=
    intentScore * (25/100) +
    descriptionScore * (10/100) +
    categoryScore * (10/100) +
    geoScore * (20/100) +
    successRate * (14/100) +
    ratingScore * (9/100) +
    tagScore * (7/100) +
    latencyScore * (3/100) +
    fraudScore * (4/100)
  if agent.status = .quarantine then max 0 (finalScore - 3/10) else finalScore

/-! ## `SearchService.search` pipeline (post-fetch stages) -/

/-- The null-like location sentinels of `SearchService.search`. -/
def nullLikeLocations : List String := ["null", "undefined", "none", "n/a"]

/-- The location normalisation at the top of `SearchService.search`:
a falsy location or a null-like sentinel (case-insensitive) becomes
absent; anything else is kept verbatim. -/
def normalizeLocation (location : Option String) : Option String :=
  match location with
  | none => none
  | some s =>
    if s.isEmpty then none
    else if jsToLower s ∈ nullLikeLocations then none
    else some s

/-- `request.limit || 10` (JS: `0` is falsy and also falls back). -/
def jsLimitOr (limit : Option ℕ) (dflt : ℕ) : ℕ :=
  match limit with
  | none => dflt
  | some 0 => dflt
  | some n => n

/-- Stable insertion of an agent into a score-descending list (an
element is placed after all elements with a score ≥ its own), modelling
the stable JS `Array.prototype.sort` with comparator
`(a, b) => b.score - a.score`. -/
def insertByScoreDesc (x : AgentRow × ℚ) : List (AgentRow × ℚ) → List (AgentRow × ℚ)
  | [] => [x]
  | y :: rest => if y.2 ≥ x.2 then y :: insertByScoreDesc x rest else x :: y :: rest

/-- Stable sort by score descending. -/
def sortByScoreDesc : List (AgentRow × ℚ) → List (AgentRow × ℚ)
  | [] => []
  | x :: rest => insertByScoreDesc x (sortByScoreDesc rest)

/-- The final result record built for each surviving agent
(`search.service.ts` lines 123–136). -/
def toSearchResponse (p : AgentRow × ℚ) : SearchAgentResponse :=
  { id := p.1.id
    name := p.1.name
    caller_id := p.1.caller_id
    endpoint := p.1.endpoint
    description := p.1.description
    tags := p.1.tags
    intents := p.1.intents
    tasks := p.1.tasks.getD []
    categories := p.1.categories
    location_scope := p.1.location_scope
    score := jsRound2 p.2
    input_schema := p.1.input_schema }

/-- `SearchService.search`, from the point where the candidate agents
have been fetched (stages 1–4 of the pipeline are the repository
queries; `agents` is their result).  `statsOf` models
`StatsRepository.findByAgentId` and `fraudPercentageOf` models
`FraudDetectionService.calculateFraudPercentage`.  Scoring uses the
*raw* request (the source passes `request`, not `normalizedRequest`,
to `calculateScore`), while the geo filter uses the normalised
location. -/
def searchPost (agents : List AgentRow) (statsOf : String → Option AgentStats)
    (fraudPercentageOf : String → ℚ) (request : SearchAgentRequest) :
    Except String (List SearchAgentResponse) :=
  let normalizedLocation := normalizeLocation request.location
  if request.categories.isEmpty then
    .error "Field \"categories\" must contain at least one category"
  else if agents.isEmpty then .ok []
  else
  let activeAgents := agents.filter (fun agent => agent.status ≠ .banned)
  let agentsWithScores := activeAgents.map
    (fun agent => (agent, calculateScore agent (statsOf agent.id) (fraudPercentageOf agent.id) request))
  let filteredAgents := agentsWithScores.filter
    (fun p =>
      let hasMinScore := p.2 ≥ 4/10
      let hasMinGeo :=
        normalizedLocation = none ∨ p.1.location_scope = "Global" ∨
          calculateGeoScore p.1.location_scope normalizedLocation ≥ 3/10
      hasMinScore ∧ hasMinGeo)
  if filteredAgents.isEmpty then .ok []
  else
  let limit := min (jsLimitOr request.limit 10) 10
  let topAgents := (sortByScoreDesc filteredAgents).take limit
  .ok (topAgents.map toSearchResponse)

/-- `searchPost` with the geo condition of the result filter removed —
used to state what "the geo filter is not applied" means. -/
def searchPostNoGeoFilter (agents : List AgentRow) (statsOf : String → Option AgentStats)
    (fraudPercentageOf : String → ℚ) (request : SearchAgentRequest) :
    Except String (List SearchAgentResponse) :=
  if request.categories.isEmpty then
    .error "Field \"categories\" must contain at least one category"
  else if agents.isEmpty then .ok []
  else
  let activeAgents := agents.filter (fun agent => agent.status ≠ .banned)
  let agentsWithScores := activeAgents.map
    (fun agent => (agent, calculateScore agent (statsOf agent.id) (fraudPercentageOf agent.id) request))
  let filteredAgents := agentsWithScores.filter (fun p => p.2 ≥ 4/10)
  if filteredAgents.isEmpty then .ok []
  else
  let limit := min (jsLimitOr request.limit 10) 10
  let topAgents := (sortByScoreDesc filteredAgents).take limit
  .ok (topAgents.map toSearchResponse)

/-! ## `AuthService` execution keys and the `/search` route -/

/-- `EXECUTION_KEY_EXPIRATION = 300` seconds. -/
def EXECUTION_KEY_EXPIRATION : ℤ := 300

/-- The payload of an execution key. -/
structure ExecutionKeyPayload where
  consumer_caller_id : String
  agent_id : String
  key_id : String
deriving DecidableEq

/-- Shallow model of `jwt.sign(payload, secret, ...)`: a signed token is
its payload together with the secret it was signed with. -/
structure SignedExecutionKey where
  payload : ExecutionKeyPayload
  signedWith : String
deriving DecidableEq

/-- `AuthService.generateExecutionKey`.  `jwtSecret` is the module
constant `JWT_SECRET`; `keyId` stands for the 16 random bytes in hex;
`now` is `Date.now()` in milliseconds.  Signs with `executionSecret`
when provided, falling back to the master secret. -/
def generateExecutionKey (jwtSecret consumerCallerId agentId keyId : String)
    (executionSecret : Option String) (now : ℤ) : SignedExecutionKey × ℤ :=
  let expiresAt := now + EXECUTION_KEY_EXPIRATION * 1000
  let secret := executionSecret.getD jwtSecret
  (⟨⟨consumerCallerId, agentId, keyId⟩, secret⟩, expiresAt)

/-- A `/search` route result item: the search response enriched with
`execution_key` and `key_expires_at`. -/
structure SearchResponseWithKey where
  result : SearchAgentResponse
  execution_key : SignedExecutionKey
  key_expires_at : ℤ
deriving DecidableEq

/-- The `/search` route handler (`routes/index.ts`): runs the search,
then for each returned agent looks up the provider's decrypted secret
(`providerSecretOf` models `AuthService.getProviderSecret`, which
returns `none` for missing rows, non-provider callers or undecryptable
ciphertexts; a falsy `caller_id` skips the lookup) and mints an
execution key.  `keyIdOf` supplies the random key ids. -/
def searchRouteHandler (jwtSecret : String) (providerSecretOf : String → Option String)
    (keyIdOf : ℕ → String) (consumerCallerId : String) (now : ℤ)
    (agents : List AgentRow) (statsOf : String → Option AgentStats)
    (fraudPercentageOf : String → ℚ) (request : SearchAgentRequest) :
    Except String (List SearchResponseWithKey) :=
  match searchPost agents statsOf fraudPercentageOf request with
  | .error e => .error e
  | .ok rs => .ok (rs.mapIdx
      (fun i r =>
        let providerSecret := if r.caller_id ≠ "" then providerSecretOf r.caller_id else none
        let ke := generateExecutionKey jwtSecret consumerCallerId r.id (keyIdOf i) providerSecret now
        ⟨r, ke.1, ke.2⟩))

/-! ## `StatsRepository.incrementFeedbackWeighted` (stats.repository.ts) -/

/-- `StatsRepository.incrementFeedbackWeighted` as a pure update of the
optional stats row: running-mean updates for latency and (weighted)
rating; the row is created on first feedback.  `now` models
`new Date()`. -/
def incrementFeedbackWeighted (agentId : String) (success : Bool) (latencyMs rating weight : ℚ)
    (now : ℤ) (existing : Option AgentStats) : AgentStats :=
  match existing with
  | none =>
    { agent_id := agentId
      calls_total := 1
      calls_success := if success then 1 else 0
      avg_latency_ms := latencyMs
      avg_rating := rating * weight
      last_feedback_at := now }
  | some ex =>
    let newCallsTotal := ex.calls_total + 1
    let newCallsSuccess := ex.calls_success + (if success then 1 else 0)
    let currentLatency := ex.avg_latency_ms
    let currentRating := ex.avg_rating
    let newAvgLatency := currentLatency + (latencyMs - currentLatency) / (newCallsTotal : ℚ)
    let weightedRating := rating * weight
    let newAvgRating := currentRating + (weightedRating - currentRating) / (newCallsTotal : ℚ)
    { agent_id := agentId
      calls_total := newCallsTotal
      calls_success := newCallsSuccess
      avg_latency_ms := newAvgLatency
      avg_rating := newAvgRating
      last_feedback_at := now }

/-! ## Feedback pipeline state (`feedback.repository.ts`,
`fraud-detection.repository.ts`, `FraudDetectionService`,
`FeedbackService`) -/

/-- A row of `agent_feedbacks`. -/
structure FeedbackRow where
  agent_id : String
  consumer_id : String
  success : Bool
  latency_ms : ℚ
  rating : ℚ
  created_at : ℤ
deriving DecidableEq

/-- `fraud_type` of a `fraud_detections` row. -/
inductive FraudType where
  | SELF_RATING
  | SPAM
  | RATING_PATTERN
  | LATENCY_INCONSISTENT
deriving DecidableEq

/-- A row of `fraud_detections` (severity and the opaque `details`
document are determined by the fraud type at every call site and are
not separately modelled). -/
structure FraudRow where
  agent_id : String
  consumer_id : Option String
  fraud_type : FraudType
deriving DecidableEq

/-- The registry database state touched by the feedback pipeline. -/
structure RegistryState where
  agents : List AgentRow
  statsRows : List AgentStats
  feedbacks : List FeedbackRow
  frauds : List FraudRow
deriving DecidableEq

/-- `StatsRepository.findByAgentId`. -/
def findStatsByAgentId (st : RegistryState) (agentId : String) : Option AgentStats :=
  st.statsRows.find? (fun s => s.agent_id = agentId)

/-- `AgentRepository.findById`. -/
def findAgentById (st : RegistryState) (agentId : String) : Option AgentRow :=
  st.agents.find? (fun a => a.id = agentId)

/-- `FeedbackRepository.countRecentByConsumerAndAgent` with a 1-hour
window (`created_at > NOW() - INTERVAL '1 hours'`). -/
def countRecentByConsumerAndAgent (st : RegistryState) (consumerId agentId : String)
    (now : ℤ) : ℕ :=
  (st.feedbacks.filter
    (fun f => f.consumer_id = consumerId ∧ f.agent_id = agentId ∧
      f.created_at > now - 3600000)).length

/-- `FeedbackRepository.countRecentByConsumer` with a 1-minute window. -/
def countRecentByConsumer (st : RegistryState) (consumerId : String) (now : ℤ) : ℕ :=
  (st.feedbacks.filter
    (fun f => f.consumer_id = consumerId ∧ f.created_at > now - 60000)).length

/-- `FeedbackRepository.countByConsumerAndAgent` (no window). -/
def countByConsumerAndAgent (st : RegistryState) (consumerId agentId : String) : ℕ :=
  (st.feedbacks.filter (fun f => f.consumer_id = consumerId ∧ f.agent_id = agentId)).length

/-- `FeedbackRepository.getFraudStats`: total feedbacks, self-rating
count (feedbacks whose consumer is the agent's owner) and the derived
percentage. -/
def getFraudStats (st : RegistryState) (agentId : String) : ℕ × ℕ × ℚ :=
  let agentCallerId := (findAgentById st agentId).map (fun a => a.caller_id)
  let total := (st.feedbacks.filter (fun f => f.agent_id = agentId)).length
  let selfRatingCount : ℕ :=
    match agentCallerId with
    | some cid =>
      if cid = "" then 0
      else (st.feedbacks.filter (fun f => f.agent_id = agentId ∧ f.consumer_id = cid)).length
    | none => 0
  let selfRatingPercentage : ℚ :=
    if total > 0 then (selfRatingCount : ℚ) / (total : ℚ) * 100 else 0
  (total, selfRatingCount, selfRatingPercentage)

/-- `FeedbackRepository.getRatingPatternStats`: total feedbacks and how
many carry an extreme rating (exactly 0 or 1). -/
def getRatingPatternStats (st : RegistryState) (agentId : String) : ℕ × ℕ × ℚ :=
  let total := (st.feedbacks.filter (fun f => f.agent_id = agentId)).length
  let extremeRatings :=
    (st.feedbacks.filter (fun f => f.agent_id = agentId ∧ (f.rating = 0 ∨ f.rating = 1))).length
  let extremePercentage : ℚ :=
    if total > 0 then (extremeRatings : ℚ) / (total : ℚ) * 100 else 0
  (total, extremeRatings, extremePercentage)

/-- `FraudDetectionRepository.getTotalFraudCount`. -/
def getTotalFraudCount (st : RegistryState) (agentId : String) : ℕ :=
  (st.frauds.filter (fun f => f.agent_id = agentId)).length

/-- `FraudDetectionService.calculateFraudPercentage`: 0 outside
production or with no feedbacks, otherwise fraud rows over feedbacks,
capped at 100. -/
def calculateFraudPercentage (production : Bool) (st : RegistryState) (agentId : String) : ℚ :=
  if ¬production then 0 else
  let total := (getFraudStats st agentId).1
  if total = 0 then 0 else
  min 100 ((getTotalFraudCount st agentId : ℚ) / (total : ℚ) * 100)

/-- `FraudDetectionService.detectSelfRating`: production-only; logs a
`SELF_RATING` row and returns weight 0.1 when the consumer owns the
agent. -/
def detectSelfRating (production : Bool) (st : RegistryState) (consumerId agentId : String) :
    ℚ × RegistryState :=
  if ¬production then (1, st) else
  match findAgentById st agentId with
  | none => (1, st)
  | some agent =>
    if agent.caller_id = "" then (1, st)
    else if consumerId = agent.caller_id then
      (1/10, { st with frauds := st.frauds ++ [⟨agentId, some consumerId, .SELF_RATING⟩] })
    else (1, st)

/-- `FraudDetectionService.detectSpam`: production-only; blocks (and
logs a `SPAM` row) when *more than 10* feedbacks from this consumer to
this agent already lie within the last hour. -/
def detectSpam (production : Bool) (st : RegistryState) (consumerId agentId : String)
    (now : ℤ) : Bool × RegistryState :=
  if ¬production then (false, st) else
  let recentCount := countRecentByConsumerAndAgent st consumerId agentId now
  if recentCount > 10 then
    (true, { st with frauds := st.frauds ++ [⟨agentId, some consumerId, .SPAM⟩] })
  else (false, st)

/-- `FraudDetectionService.detectRatingPatterns`: audit-only logging of
extreme-rating patterns. -/
def detectRatingPatterns (production : Bool) (st : RegistryState) (agentId : String) :
    RegistryState :=
  if ¬production then st else
  let stats := getRatingPatternStats st agentId
  if stats.1 ≥ 10 ∧ stats.2.2 > 80 then
    { st with frauds := st.frauds ++ [⟨agentId, none, .RATING_PATTERN⟩] }
  else st

/-- `FraudDetectionService.calculateFeedbackWeight`:
`max(0.1, 1 / (1 + ln(1 + count)))`.  The real-valued `Math.log(1 + n)`
is abstracted by the oracle `logOf` (none of the verified claims
depends on its values). -/
def calculateFeedbackWeight (production : Bool) (logOf : ℕ → ℚ) (st : RegistryState)
    (consumerId agentId : String) : ℚ :=
  if ¬production then 1 else
  let count := countByConsumerAndAgent st consumerId agentId
  if count = 0 then 1 else
  max (1/10) (1 / (1 + logOf count))

/-- `FraudDetectionService.analyzeFeedback`: self-rating weight, spam
block, decreasing weight, rating-pattern audit; returns the combined
weight, the block flag and the state with any fraud rows appended. -/
def analyzeFeedback (production : Bool) (logOf : ℕ → ℚ) (st : RegistryState)
    (consumerId agentId : String) (now : ℤ) : ℚ × Bool × RegistryState :=
  if ¬production then (1, false, st) else
  let sr := detectSelfRating production st consumerId agentId
  let sp := detectSpam production sr.2 consumerId agentId now
  if sp.1 then (0, true, sp.2) else
  let decreasingWeight := calculateFeedbackWeight production logOf sp.2 consumerId agentId
  let st3 := detectRatingPatterns production sp.2 agentId
  (sr.1 * decreasingWeight, false, st3)

/-! ## `FeedbackService.submitFeedback` (feedback.service.ts) -/

/-- A feedback request with the consumer id injected by the route. -/
structure FeedbackRequest where
  agent_id : String
  consumer_id : String
  success : Bool
  latency_ms : ℚ
  rating : ℚ
deriving DecidableEq

/-- Replace the agent's stats row (or append it) — the effect of
`StatsRepository.create` / `update`. -/
def upsertStats (st : RegistryState) (s : AgentStats) : RegistryState :=
  if (st.statsRows.find? (fun r => r.agent_id = s.agent_id)).isSome then
    { st with statsRows := st.statsRows.map (fun r => if r.agent_id = s.agent_id then s else r) }
  else
    { st with statsRows := st.statsRows ++ [s] }

/-- `FeedbackService.validateRequest` (the `typeof` checks are
type-level in the embedding). -/
def validateFeedbackRequest (request : FeedbackRequest) : Option String :=
  if request.agent_id.trim = "" then some "Field \"agent_id\" is required"
  else if request.latency_ms < 0 then some "Field \"latency_ms\" must be a non-negative number"
  else if request.rating < 0 ∨ request.rating > 1 then
    some "Field \"rating\" must be a number between 0 and 1"
  else none

/-- `FeedbackService.submitFeedback`: validation, 60/min rate limit,
agent lookup, fraud analysis (which may block and may append fraud
rows), feedback insertion, weighted stats update.  Returns the
route-visible outcome together with the post-call database state
(fraud rows written before a block persist, as in the source where
each repository write commits separately). -/
def submitFeedback (production : Bool) (logOf : ℕ → ℚ) (now : ℤ) (st : RegistryState)
    (request : FeedbackRequest) : Except String Unit × RegistryState :=
  match validateFeedbackRequest request with
  | some e => (.error e, st)
  | none =>
  let recentCount := countRecentByConsumer st request.consumer_id now
  if recentCount ≥ 60 then (.error "Feedback rate limit exceeded: max 60 per minute", st)
  else
  match findAgentById st request.agent_id with
  | none => (.error ("Agent with id \"" ++ request.agent_id ++ "\" not found"), st)
  | some _ =>
  let fa := analyzeFeedback production logOf st request.consumer_id request.agent_id now
  if fa.2.1 then (.error "Feedback blocked: spam detected", fa.2.2)
  else
  let st1 := fa.2.2
  let st2 := { st1 with feedbacks := st1.feedbacks ++
    [⟨request.agent_id, request.consumer_id, request.success, request.latency_ms,
      request.rating, now⟩] }
  let newStats := incrementFeedbackWeighted request.agent_id request.success request.latency_ms
    request.rating fa.1 now (findStatsByAgentId st2 request.agent_id)
  (.ok (), upsertStats st2 newStats)

/-- Sequential submission of a batch of timestamped feedback requests,
collecting each outcome. -/
def submitFeedbackSeq (production : Bool) (logOf : ℕ → ℚ) :
    RegistryState → List (ℤ × FeedbackRequest) → RegistryState × List (Except String Unit)
  | st, [] => (st, [])
  | st, (t, r) :: rest =>
    let step := submitFeedback production logOf t st r
    let tail := submitFeedbackSeq production logOf step.2 rest
    (tail.1, step.1 :: tail.2)

/-! ## `QuarantineService` (quarantine.service.ts) -/

/-- The metrics block of a health report. -/
structure HealthMetrics where
  success_rate : ℚ
  avg_rating : ℚ
  avg_latency_ms : ℤ
  total_feedbacks : ℕ
  fraud_detected : ℤ
  fraud_percentage : ℚ
  self_rating_percentage : ℚ
deriving DecidableEq

/-- A health-report warning; the constructor identifies the message
template and carries the interpolated quantity (the `toFixed` text
formatting itself is not modelled). -/
inductive HealthWarning where
  | lowSuccessRate (successRate : ℚ)
  | lowAvgRating (avgRating : ℚ)
  | highLatency (avgLatency : ℚ)
  | fraudDetected (fraudPercentage : ℚ)
  | criticalLowSuccessRate (successRate : ℚ)
  | criticalLowRating (avgRating : ℚ)
  | criticalFraud (fraudPercentage : ℚ)
  | criticalSelfRating (selfRatingPercentage : ℚ)
deriving DecidableEq

/-- `quarantine_risk` levels. -/
inductive QuarantineRisk where
  | low
  | medium
  | high
  | critical
deriving DecidableEq

/-- The health report returned by `QuarantineService.checkAgentHealth`
(source type `AgentHealthMetrics`). -/
structure AgentHealthMetrics where
  agent_id : String
  status : AgentStatus
  health_score : ℚ
  metrics : HealthMetrics
  warnings : List HealthWarning
  quarantine_risk : QuarantineRisk
  quarantine_reason : Option String
deriving DecidableEq

/-- The health-score formula of `checkAgentHealth`:
`0.4·success + 0.3·rating + 0.1·(1 − min(latency/10000, 1)) +
0.2·(1 − fraud%/100)`. -/
def healthScoreFormula (successRate avgRating avgLatency fraudPercentage : ℚ) : ℚ :=
  successRate * (4/10) +
  avgRating * (3/10) +
  (1 - min (avgLatency / 10000) 1) * (1/10) +
  (1 - fraudPercentage / 100) * (2/10)

/-- `QuarantineService.checkAgentHealth`.  `none` when the agent does
not exist; a fixed perfect report when the agent has no stats row;
otherwise the computed report.  The warning/risk threshold chain runs
in every mode — only `calculateFraudPercentage` is production-gated. -/
def checkAgentHealth (production : Bool) (st : RegistryState) (agentId : String) :
    Option AgentHealthMetrics :=
  match findAgentById st agentId with
  | none => none
  | some agent =>
    match findStatsByAgentId st agentId with
    | none =>
      some
        { agent_id := agentId
          status := agent.status
          health_score := 1
          metrics :=
            { success_rate := 0, avg_rating := 0, avg_latency_ms := 0, total_feedbacks := 0
              fraud_detected := 0, fraud_percentage := 0, self_rating_percentage := 0 }
          warnings := []
          quarantine_risk := .low
          quarantine_reason := none }
    | some stats =>
      let successRate : ℚ :=
        if stats.calls_total > 0 then (stats.calls_success : ℚ) / (stats.calls_total : ℚ) else 0
      let avgRating := stats.avg_rating
      let avgLatency := stats.avg_latency_ms
      let fraudPercentage := calculateFraudPercentage production st agentId
      let fraudStats := getFraudStats st agentId
      let healthScore := healthScoreFormula successRate avgRating avgLatency fraudPercentage
      let wr0 : List HealthWarning × QuarantineRisk := ([], .low)
      let wr1 := if stats.calls_total ≥ 20 ∧ successRate < 4/10 then
          (wr0.1 ++ [.lowSuccessRate successRate], QuarantineRisk.high) else wr0
      let wr2 := if stats.calls_total ≥ 15 ∧ avgRating < 3/10 then
          (wr1.1 ++ [.lowAvgRating avgRating], QuarantineRisk.high) else wr1
      let wr3 := if stats.calls_total ≥ 10 ∧ avgLatency > 30000 then
          (wr2.1 ++ [.highLatency avgLatency], QuarantineRisk.high) else wr2
      let wr4 := if fraudPercentage > 50 then
          (wr3.1 ++ [.fraudDetected fraudPercentage], QuarantineRisk.high) else wr3
      let wr5 := if stats.calls_total ≥ 40 ∧ successRate < 2/10 then
          (wr4.1 ++ [.criticalLowSuccessRate successRate], QuarantineRisk.critical) else wr4
      let wr6 := if stats.calls_total ≥ 30 ∧ avgRating < 15/100 then
          (wr5.1 ++ [.criticalLowRating avgRating], QuarantineRisk.critical) else wr5
      let wr7 := if fraudPercentage > 70 then
          (wr6.1 ++ [.criticalFraud fraudPercentage], QuarantineRisk.critical) else wr6
      let wr8 := if fraudStats.2.2 > 80 then
          (wr7.1 ++ [.criticalSelfRating fraudStats.2.2], QuarantineRisk.critical) else wr7
      some
        { agent_id := agentId
          status := agent.status
          health_score := jsRound2 healthScore
          metrics :=
            { success_rate := jsRound2 successRate
              avg_rating := jsRound2 avgRating
              avg_latency_ms := jsRound avgLatency
              total_feedbacks := stats.calls_total
              fraud_detected :=
                if fraudStats.1 > 0 then jsRound ((fraudStats.1 : ℚ) * fraudPercentage / 100) else 0
              fraud_percentage := jsRound1 fraudPercentage
              self_rating_percentage := jsRound1 fraudStats.2.2 }
          warnings := wr8.1
          quarantine_risk := wr8.2
          quarantine_reason := agent.quarantine_reason }

/-! ## `QuarantineService.autoReviewAgents` -/

/-- Summary counts returned by the auto-review task. -/
structure ReviewCounts where
  quarantined : ℕ
  reactivated : ℕ
  banned : ℕ
deriving DecidableEq

/-- Zero counts. -/
def ReviewCounts.zero : ReviewCounts := ⟨0, 0, 0⟩

/-- Componentwise addition of counts. -/
def ReviewCounts.add (a b : ReviewCounts) : ReviewCounts :=
  ⟨a.quarantined + b.quarantined, a.reactivated + b.reactivated, a.banned + b.banned⟩

/-- The status transition the loop body of `autoReviewAgents` chooses
for one agent. -/
inductive ReviewAction where
  | keep
  | toQuarantine
  | toActive
  | toBanned
deriving DecidableEq

/-- The decision logic of the `autoReviewAgents` loop body for one
snapshot row `agent`, evaluated against the current state `st`.  Note
the source's `Number(stats.avg_rating) || 1` in the active branch: a
zero average rating is coerced to 1 there (while the quarantine branch
uses `|| 0`, the identity on `ℚ`). -/
def autoReviewDecision (production : Bool) (st : RegistryState) (agent : AgentRow) :
    ReviewAction :=
  match checkAgentHealth production st agent.id with
  | none => .keep
  | some health =>
    match agent.status with
    | .active =>
      if health.quarantine_risk = .high ∨ health.quarantine_risk = .critical then
        match findStatsByAgentId st agent.id with
        | none => .keep
        | some stats =>
          let successRate : ℚ :=
            if stats.calls_total > 0 then (stats.calls_success : ℚ) / (stats.calls_total : ℚ)
            else 1
          let avgRating := jsOrOne stats.avg_rating
          let avgLatency := stats.avg_latency_ms
          if stats.calls_total ≥ 20 ∧ successRate < 4/10 then .toQuarantine
          else if stats.calls_total ≥ 15 ∧ avgRating < 3/10 then .toQuarantine
          else if stats.calls_total ≥ 10 ∧ avgLatency > 30000 then .toQuarantine
          else if health.metrics.fraud_percentage > 50 then .toQuarantine
          else .keep
      else .keep
    | .quarantine =>
      match findStatsByAgentId st agent.id with
      | none => .keep
      | some stats =>
        let successRate : ℚ :=
          if stats.calls_total > 0 then (stats.calls_success : ℚ) / (stats.calls_total : ℚ)
          else 0
        let avgRating := stats.avg_rating
        if (stats.calls_total ≥ 40 ∧ successRate < 2/10) ∨
           (stats.calls_total ≥ 30 ∧ avgRating < 15/100) ∨
           health.metrics.fraud_percentage > 70 ∨
           health.metrics.self_rating_percentage > 80 then .toBanned
        else if successRate ≥ 45/100 ∧ avgRating ≥ 35/100 ∧
                health.metrics.fraud_percentage < 40 then .toActive
        else .keep
    | .banned => .keep

/-- The status write of `quarantineAgent` / `reactivateAgent` /
`banAgent` (the `quarantine_reason` text they also write is not
modelled). -/
def setAgentStatus (st : RegistryState) (agentId : String) (status : AgentStatus) :
    RegistryState :=
  { st with agents := st.agents.map (fun a => if a.id = agentId then { a with status := status } else a) }

/-- Applying one decision to the state, with its count delta. -/
def applyReviewAction (st : RegistryState) (agent : AgentRow) :
    ReviewAction → RegistryState × ReviewCounts
  | .keep => (st, ReviewCounts.zero)
  | .toQuarantine => (setAgentStatus st agent.id .quarantine, ⟨1, 0, 0⟩)
  | .toActive => (setAgentStatus st agent.id .active, ⟨0, 1, 0⟩)
  | .toBanned => (setAgentStatus st agent.id .banned, ⟨0, 0, 1⟩)

/-- The fold of the `autoReviewAgents` loop over the snapshot of agent
rows fetched at the start of the run. -/
def autoReviewGo (production : Bool) :
    List AgentRow → RegistryState → ReviewCounts → RegistryState × ReviewCounts
  | [], st, counts => (st, counts)
  | agent :: rest, st, counts =>
    let step := applyReviewAction st agent (autoReviewDecision production st agent)
    autoReviewGo production rest step.1 (counts.add step.2)

/-- `QuarantineService.autoReviewAgents`: a no-op outside production;
otherwise one pass over all agents, applying threshold set 1 to
`active` agents, and threshold set 2 / reactivation to `quarantine`
agents. -/
def autoReviewAgents (production : Bool) (st : RegistryState) : RegistryState × ReviewCounts :=
  if ¬production then (st, ReviewCounts.zero)
  else autoReviewGo production st.agents st ReviewCounts.zero

/-! ## Shared sample data for witnesses and counterexamples -/

deriving instance DecidableEq for Except

/-- A minimal located, active agent used in the search examples. -/
def agParis : AgentRow :=
  { id := "agent-a", name := "Paris Food", endpoint := "https://a.example", description := "",
    caller_id := "provider-1", tags := [], intents := ["food.search"], tasks := none,
    categories := ["food"], location_scope := "paris,france", input_schema := none,
    status := .active, quarantine_reason := none }

/-- Stats lookup of an empty `agent_stats` table. -/
def statsNoneFun : String → Option AgentStats := fun _ => none

/-- Fraud percentage of an agent with no fraud rows (and of any agent
outside production). -/
def fraudZeroFun : String → ℚ := fun _ => 0

/-- A search for `food.search` in category `food` located in `paris`. -/
def reqParis : SearchAgentRequest :=
  { intent := .single "food.search", categories := ["food"], tags := none,
    location := some "paris", language := none, description := none, limit := none }

/-- The same search with the literal string `"null"` as location. -/
def reqNull : SearchAgentRequest := { reqParis with location := some "null" }

/-- The same search with no location. -/
def reqNoLoc : SearchAgentRequest := { reqParis with location := none }

/-- A concrete all-`none` weight oracle for `Math.log`. -/
def logZero : ℕ → ℚ := fun _ => 0

/-! ## Claim C7 — geo factor with no location -/

/-- Claim C7 as stated is false: with no search location, a `"Global"`
agent's geo factor is 0.3 in `calculateGeoScore`, not 1.0. -/
theorem C7_counterexample :
    calculateGeoScore "Global" none = 3/10 ∧ calculateGeoScore "Global" none ≠ 1 :=
  of_decide_eq_true (by with_unfolding_all rfl)

/-- Claim C7 (amended): when the request carries no location (or the
agent has no location), the geo factor is 0.3 if the agent's
`location_scope` is `"Global"` and 0.5 otherwise. -/
theorem C7_geoScore_noLocation (agentLocation : String) (searchLocation : Option String)
    (h : jsFalsy searchLocation = true ∨ agentLocation = "") :
    calculateGeoScore agentLocation searchLocation =
      if agentLocation = "Global" then 3/10 else 1/2 := by
  unfold calculateGeoScore
  rw [if_pos h]

/-- Witness for `C7_geoScore_noLocation` at a concrete located agent
and absent search location. -/
theorem C7_geoScore_noLocation_witness :
    calculateGeoScore "paris,france" none = 1/2 := by
  rw [C7_geoScore_noLocation "paris,france" none (Or.inl (by with_unfolding_all rfl))]
  with_unfolding_all rfl

/-! ## Claim C10 — health report with no stats row -/

/-- The fixed perfect health report returned when the agent has no
stats row. -/
def perfectHealthReport (agentId : String) (status : AgentStatus) : AgentHealthMetrics :=
  { agent_id := agentId
    status := status
    health_score := 1
    metrics :=
      { success_rate := 0, avg_rating := 0, avg_latency_ms := 0, total_feedbacks := 0
        fraud_detected := 0, fraud_percentage := 0, self_rating_percentage := 0 }
    warnings := []
    quarantine_risk := .low
    quarantine_reason := none }

/-- Claim C10: for an agent that exists but has no stats row,
`checkAgentHealth` returns `health_score = 1.0`, all-zero metrics, no
warnings and `quarantine_risk = low` — and does not apply the
health-score formula, which would yield 0.3 on all-zero metrics. -/
theorem C10_health_no_stats (production : Bool) (st : RegistryState) (agentId : String)
    (agent : AgentRow) (hA : findAgentById st agentId = some agent)
    (hS : findStatsByAgentId st agentId = none) :
    checkAgentHealth production st agentId = some (perfectHealthReport agentId agent.status) ∧
      healthScoreFormula 0 0 0 0 = 3/10 := by
  constructor
  · unfold checkAgentHealth
    rw [hA, hS]
    rfl
  · with_unfolding_all rfl

/-- Witness for `C10_health_no_stats`: a one-agent state with an empty
`agent_stats` table. -/
def stNoStats : RegistryState :=
  { agents := [agParis], statsRows := [], feedbacks := [], frauds := [] }

/-- Witness for `C10_health_no_stats` at `stNoStats`. -/
theorem C10_health_no_stats_witness :
    checkAgentHealth true stNoStats "agent-a" = some (perfectHealthReport "agent-a" .active) ∧
      healthScoreFormula 0 0 0 0 = 3/10 :=
  C10_health_no_stats true stNoStats "agent-a" agParis (by with_unfolding_all rfl)
    (by with_unfolding_all rfl)

/-! ## Claim C8 — risk levels outside production -/

/-- A development-mode state whose single agent has 20 calls and 0
successes. -/
def stDevRisk : RegistryState :=
  { agents := [agParis]
    statsRows := [⟨"agent-a", 20, 0, 100, 1/2, 0⟩]
    feedbacks := []
    frauds := [] }

/-- Claim C8 as stated is false: outside production the health report
still assigns threshold-based risk levels — this agent (20 calls, 0
successes) gets `quarantine_risk = high`, not `low`. -/
theorem C8_counterexample :
    (checkAgentHealth false stDevRisk "agent-a").map (fun h => h.quarantine_risk)
      = some QuarantineRisk.high ∧ QuarantineRisk.high ≠ QuarantineRisk.low :=
  of_decide_eq_true (by with_unfolding_all rfl)

/-- Fraud percentage vanishes in production when there are no fraud
rows. -/
theorem calculateFraudPercentage_no_frauds (st : RegistryState) (agentId : String)
    (h : st.frauds = []) : calculateFraudPercentage true st agentId = 0 := by
  unfold calculateFraudPercentage getTotalFraudCount
  rw [h]
  simp

/-- Claim C8 (amended): the health report's warning/risk chain runs in
every mode; development differs from production only in that
`calculateFraudPercentage` is forced to 0 there, so a development
report equals the production report computed on the same state with
the fraud log emptied. -/
theorem C8_health_dev_eq_prod_no_frauds (st : RegistryState) (agentId : String) :
    checkAgentHealth false st agentId =
      checkAgentHealth true { st with frauds := [] } agentId := by
  have hdev : calculateFraudPercentage false st agentId = 0 := by
    unfold calculateFraudPercentage
    simp
  have hprod : calculateFraudPercentage true { st with frauds := [] } agentId = 0 :=
    calculateFraudPercentage_no_frauds _ agentId rfl
  have hagents : findAgentById { st with frauds := [] } agentId = findAgentById st agentId := rfl
  have hstats : findStatsByAgentId { st with frauds := [] } agentId
      = findStatsByAgentId st agentId := rfl
  have hfs : getFraudStats { st with frauds := [] } agentId = getFraudStats st agentId := rfl
  unfold checkAgentHealth
  rw [hagents, hstats, hfs, hdev, hprod]

/-! ## Claim C6 — active agent with rating below 0.3 -/

/-- The C6 failing input: an active agent with `calls_total = 15` and
`avg_rating = 0` (which is `< 0.3`), perfect success rate, low
latency, no fraud. -/
def stRatingZero : RegistryState :=
  { agents := [agParis]
    statsRows := [⟨"agent-a", 15, 15, 100, 0, 0⟩]
    feedbacks := []
    frauds := [] }

/-- Claim C6 fails on this input: the agent is active with
`calls_total ≥ 15` and `avg_rating = 0 < 0.3` (the health check itself
flags it `high` risk), yet production auto-review leaves it `active`
with zero counts — the loop's `Number(stats.avg_rating) || 1` coerces
the zero rating to 1 before comparing with 0.3. -/
theorem C6_failing_input_eval :
    (findStatsByAgentId stRatingZero "agent-a").map
        (fun s => (s.calls_total, s.avg_rating)) = some (15, 0) ∧
      (findAgentById stRatingZero "agent-a").map (fun a => a.status)
        = some AgentStatus.active ∧
      (checkAgentHealth true stRatingZero "agent-a").map (fun h => h.quarantine_risk)
        = some QuarantineRisk.high ∧
      autoReviewAgents true stRatingZero = (stRatingZero, ReviewCounts.zero) :=
  of_decide_eq_true (by with_unfolding_all rfl)

/-! ## Claim C3 — stats invariants under weighted feedback -/

/-- One accepted feedback as it reaches
`StatsRepository.incrementFeedbackWeighted`: the validated fields plus
the anti-fraud weight computed for it. -/
structure WeightedFeedback where
  success : Bool
  latency_ms : ℚ
  rating : ℚ
  weight : ℚ
  time : ℤ
deriving DecidableEq

/-- The bounds `FeedbackService.validateRequest` enforces, together
with the anti-fraud weight range (the weight is a product of values in
`(0, 1]`, floored at 0.1). -/
def AcceptedFeedback (fb : WeightedFeedback) : Prop :=
  0 ≤ fb.rating ∧ fb.rating ≤ 1 ∧ 0 ≤ fb.latency_ms ∧ 0 < fb.weight ∧ fb.weight ≤ 1

instance (fb : WeightedFeedback) : Decidable (AcceptedFeedback fb) := by
  unfold AcceptedFeedback
  infer_instance

/-- Folding a sequence of weighted feedbacks into the (optional) stats
row via `incrementFeedbackWeighted`. -/
def applyWeightedFeedbacks (agentId : String) (init : Option AgentStats)
    (fbs : List WeightedFeedback) : Option AgentStats :=
  fbs.foldl
    (fun acc fb =>
      some (incrementFeedbackWeighted agentId fb.success fb.latency_ms fb.rating fb.weight
        fb.time acc))
    init

/-- The claimed invariant on a stats row. -/
def StatsInvariant (s : AgentStats) : Prop :=
  s.calls_success ≤ s.calls_total ∧
    (0 < s.calls_total → 0 ≤ s.avg_rating ∧ s.avg_rating ≤ 1)

/-- The invariant on an optional stats row (no row yet is fine). -/
def StatsInvariantOpt : Option AgentStats → Prop
  | none => True
  | some s => StatsInvariant s

instance (s : AgentStats) : Decidable (StatsInvariant s) := by
  unfold StatsInvariant
  infer_instance

instance (o : Option AgentStats) : Decidable (StatsInvariantOpt o) := by
  cases o <;> unfold StatsInvariantOpt <;> infer_instance

/-- The weighted rating of an accepted feedback lies in `[0, 1]`. -/
theorem weightedRating_mem_unit (fb : WeightedFeedback) (hfb : AcceptedFeedback fb) :
    0 ≤ fb.rating * fb.weight ∧ fb.rating * fb.weight ≤ 1 := by
  obtain ⟨h0, h1, _, hw0, hw1⟩ := hfb
  exact ⟨mul_nonneg h0 hw0.le, mul_le_one₀ h1 hw0.le hw1⟩

/-- One step of `incrementFeedbackWeighted` preserves the invariant. -/
theorem incrementFeedbackWeighted_invariant (agentId : String) (fb : WeightedFeedback)
    (o : Option AgentStats) (ho : StatsInvariantOpt o) (hfb : AcceptedFeedback fb) :
    StatsInvariant
      (incrementFeedbackWeighted agentId fb.success fb.latency_ms fb.rating fb.weight
        fb.time o) := by
  obtain ⟨hx0, hx1⟩ := weightedRating_mem_unit fb hfb
  cases o with
  | none =>
    refine ⟨?_, fun _ => ⟨hx0, hx1⟩⟩
    simp [incrementFeedbackWeighted]
    split <;> simp
  | some ex =>
    obtain ⟨hcs, hrat⟩ := ho
    refine ⟨?_, fun _ => ?_⟩
    · simp only [incrementFeedbackWeighted]
      split <;> omega
    · simp only [incrementFeedbackWeighted]
      set n := ex.calls_total with hn
      set r := ex.avg_rating with hr
      set x := fb.rating * fb.weight with hxdef
      have hrecur : r + (x - r) / ((n : ℚ) + 1) = ((n : ℚ) * r + x) / ((n : ℚ) + 1) := by
        have hne : ((n : ℚ) + 1) ≠ 0 := by positivity
        field_simp
        ring
      rcases Nat.eq_zero_or_pos n with hn0 | hnpos
      · constructor
        · simp only [hn0, Nat.cast_ofNat, Nat.cast_zero, Nat.zero_add]
          push_cast
          simpa using hx0
        · simp only [hn0, Nat.cast_zero]
          push_cast
          simpa using hx1
      · obtain ⟨hr0, hr1⟩ := hrat hnpos
        have hposq : (0 : ℚ) < (n : ℚ) + 1 := by positivity
        constructor
        · push_cast
          rw [hrecur]
          apply div_nonneg _ hposq.le
          have : (0 : ℚ) ≤ (n : ℚ) * r := by positivity
          linarith
        · push_cast
          rw [hrecur]
          rw [div_le_one hposq]
          have : (n : ℚ) * r ≤ (n : ℚ) := by
            nlinarith [Nat.cast_nonneg (α := ℚ) n]
          linarith

/-- Claim C3: over any sequence of accepted feedbacks (rating in
`[0,1]`, latency ≥ 0, weight in `(0,1]`), the stats row keeps
`0 ≤ calls_success ≤ calls_total`, and `avg_rating ∈ [0,1]` whenever
`calls_total > 0`. -/
theorem C3_stats_invariant (agentId : String) (init : Option AgentStats)
    (hinit : StatsInvariantOpt init) (fbs : List WeightedFeedback)
    (hfbs : ∀ fb ∈ fbs, AcceptedFeedback fb) :
    StatsInvariantOpt (applyWeightedFeedbacks agentId init fbs) := by
  induction fbs generalizing init with
  | nil => exact hinit
  | cons fb rest ih =>
    have hfb := hfbs fb (List.mem_cons_self fb rest)
    have hstep := incrementFeedbackWeighted_invariant agentId fb init hinit hfb
    exact ih _ hstep (fun g hg => hfbs g (List.mem_cons_of_mem fb hg))

/-- Witness for `C3_stats_invariant`: two concrete accepted feedbacks
starting from no stats row. -/
theorem C3_stats_invariant_witness :
    StatsInvariantOpt (applyWeightedFeedbacks "agent-a" none
      [⟨true, 100, 1/2, 1, 0⟩, ⟨false, 2000, 1, 1/10, 1⟩]) :=
  C3_stats_invariant "agent-a" none trivial
    [⟨true, 100, 1/2, 1, 0⟩, ⟨false, 2000, 1, 1/10, 1⟩]
    (of_decide_eq_true (by with_unfolding_all rfl))

/-! ## Claim C5 — idempotence of auto-review -/

/-- Adding zero counts is the identity. -/
theorem ReviewCounts.add_zero (c : ReviewCounts) : c.add ReviewCounts.zero = c := by
  cases c
  simp [ReviewCounts.add, ReviewCounts.zero]

/-- A review step that contributes no counts leaves the state
untouched (every transition increments exactly one counter). -/
theorem applyReviewAction_counts_zero (st : RegistryState) (agent : AgentRow)
    (act : ReviewAction) (h : (applyReviewAction st agent act).2 = ReviewCounts.zero) :
    (applyReviewAction st agent act).1 = st := by
  cases act <;> simp_all [applyReviewAction, ReviewCounts.zero]

/-- The counters never decrease along the auto-review fold. -/
theorem autoReviewGo_counts_mono (production : Bool) (rows : List AgentRow) :
    ∀ st c, c.quarantined ≤ ((autoReviewGo production rows st c).2).quarantined ∧
      c.reactivated ≤ ((autoReviewGo production rows st c).2).reactivated ∧
      c.banned ≤ ((autoReviewGo production rows st c).2).banned := by
  induction rows with
  | nil => exact fun st c => ⟨le_refl _, le_refl _, le_refl _⟩
  | cons agent rest ih =>
    intro st c
    have hrec := ih (applyReviewAction st agent (autoReviewDecision production st agent)).1
      (c.add (applyReviewAction st agent (autoReviewDecision production st agent)).2)
    refine ⟨le_trans ?_ hrec.1, le_trans ?_ hrec.2.1, le_trans ?_ hrec.2.2⟩ <;>
      simp [ReviewCounts.add]

/-- If the auto-review fold reports exactly its starting counts, it
changed no agent's status. -/
theorem autoReviewGo_counts_fixed (production : Bool) (rows : List AgentRow) :
    ∀ st c, (autoReviewGo production rows st c).2 = c →
      (autoReviewGo production rows st c).1 = st := by
  induction rows with
  | nil => intro st c _; rfl
  | cons agent rest ih =>
    intro st c h
    have hmono := autoReviewGo_counts_mono production rest
      (applyReviewAction st agent (autoReviewDecision production st agent)).1
      (c.add (applyReviewAction st agent (autoReviewDecision production st agent)).2)
    have hgo : autoReviewGo production (agent :: rest) st c =
        autoReviewGo production rest
          (applyReviewAction st agent (autoReviewDecision production st agent)).1
          (c.add (applyReviewAction st agent (autoReviewDecision production st agent)).2) := rfl
    rw [hgo] at h ⊢
    have hzero : (applyReviewAction st agent (autoReviewDecision production st agent)).2 =
        ReviewCounts.zero := by
      have h1 := hmono.1
      have h2 := hmono.2.1
      have h3 := hmono.2.2
      rw [h] at h1 h2 h3
      cases hd : (applyReviewAction st agent (autoReviewDecision production st agent)).2
      rw [hd] at h1 h2 h3
      simp [ReviewCounts.add] at h1 h2 h3
      simp [ReviewCounts.zero]
      omega
    have hst : (applyReviewAction st agent (autoReviewDecision production st agent)).1 = st :=
      applyReviewAction_counts_zero st agent _ hzero
    rw [hzero, ReviewCounts.add_zero] at h ⊢
    rw [hst] at h ⊢
    exact ih st c h

/-- Claim C5 (amended): when a production auto-review run reports zero
quarantined, reactivated and banned agents, it changed no agent's
status, and running it again immediately (stats and fraud counts
unchanged) is a no-op with zero counts.  (Runs that *do* transition
agents are not idempotent — see the counterexample.) -/
theorem C5_autoReview_idempotent_on_stable (production : Bool) (st : RegistryState)
    (h : (autoReviewAgents production st).2 = ReviewCounts.zero) :
    (autoReviewAgents production st).1 = st ∧
      autoReviewAgents production ((autoReviewAgents production st).1) =
        (st, ReviewCounts.zero) := by
  cases production with
  | false =>
    refine ⟨rfl, rfl⟩
  | true =>
    have hfix : (autoReviewAgents true st).1 = st := by
      have : (autoReviewGo true st.agents st ReviewCounts.zero).2 = ReviewCounts.zero := h
      exact autoReviewGo_counts_fixed true st.agents st ReviewCounts.zero this
    refine ⟨hfix, ?_⟩
    rw [hfix]
    rw [Prod.ext_iff]
    exact ⟨hfix, h⟩

/-- A production state whose single active agent has 40 calls and 0
successes (success rate 0, rating 0.5). -/
def stDecaying : RegistryState :=
  { agents := [agParis]
    statsRows := [⟨"agent-a", 40, 0, 100, 1/2, 0⟩]
    feedbacks := []
    frauds := [] }

/-- Claim C5 as stated is false: with stats and fraud counts unchanged
between runs, the first auto-review run quarantines the agent
(`{1,0,0}`), and the second run — far from being a no-op — bans it and
reports `{0,0,1}`. -/
theorem C5_counterexample :
    (autoReviewAgents true stDecaying).2 = ⟨1, 0, 0⟩ ∧
      (autoReviewAgents true stDecaying).1.agents.map (fun a => a.status)
        = [AgentStatus.quarantine] ∧
      (autoReviewAgents true stDecaying).1.statsRows = stDecaying.statsRows ∧
      (autoReviewAgents true stDecaying).1.frauds = stDecaying.frauds ∧
      (autoReviewAgents true ((autoReviewAgents true stDecaying).1)).2 = ⟨0, 0, 1⟩ ∧
      (autoReviewAgents true ((autoReviewAgents true stDecaying).1)).1.agents.map
          (fun a => a.status) = [AgentStatus.banned] :=
  of_decide_eq_true (by with_unfolding_all rfl)

/-- A production state whose single active agent is healthy (perfect
success rate, rating 0.5, low latency, no fraud). -/
def stHealthy : RegistryState :=
  { agents := [agParis]
    statsRows := [⟨"agent-a", 20, 20, 100, 1/2, 0⟩]
    feedbacks := []
    frauds := [] }

/-- Witness for `C5_autoReview_idempotent_on_stable` on a state whose
first run makes no transitions. -/
theorem C5_autoReview_idempotent_on_stable_witness :
    (autoReviewAgents true stHealthy).1 = stHealthy ∧
      autoReviewAgents true ((autoReviewAgents true stHealthy).1) =
        (stHealthy, ReviewCounts.zero) :=
  C5_autoReview_idempotent_on_stable true stHealthy
    (of_decide_eq_true (by with_unfolding_all rfl))

/-! ## Search-pipeline lemmas -/

/-- Insertion keeps elements of the list (plus the inserted one). -/
theorem mem_insertByScoreDesc {x y : AgentRow × ℚ} :
    ∀ {l : List (AgentRow × ℚ)}, x ∈ insertByScoreDesc y l → x = y ∨ x ∈ l := by
  intro l
  induction l with
  | nil =>
    intro h
    rw [insertByScoreDesc] at h
    exact Or.inl (List.mem_singleton.mp h)
  | cons z rest ih =>
    intro h
    unfold insertByScoreDesc at h
    by_cases hc : z.2 ≥ y.2
    · rw [if_pos hc] at h
      rcases List.mem_cons.mp h with h1 | h2
      · exact Or.inr (h1 ▸ List.mem_cons_self z rest)
      · rcases ih h2 with h3 | h4
        · exact Or.inl h3
        · exact Or.inr (List.mem_cons_of_mem z h4)
    · rw [if_neg hc] at h
      rcases List.mem_cons.mp h with h1 | h2
      · exact Or.inl h1
      · exact Or.inr h2

/-- The stable sort is a permutation-free membership preserver. -/
theorem mem_sortByScoreDesc {x : AgentRow × ℚ} :
    ∀ {l : List (AgentRow × ℚ)}, x ∈ sortByScoreDesc l → x ∈ l := by
  intro l
  induction l with
  | nil => intro h; simp [sortByScoreDesc] at h
  | cons z rest ih =>
    intro h
    unfold sortByScoreDesc at h
    rcases mem_insertByScoreDesc h with h1 | h2
    · exact h1 ▸ List.mem_cons_self z rest
    · exact List.mem_cons_of_mem z (ih h2)

/-- Rounding to two decimals preserves the 0.4 score floor. -/
theorem jsRound2_ge_two_fifths {q : ℚ} (h : q ≥ 4/10) : jsRound2 q ≥ 4/10 := by
  unfold jsRound2 jsRound
  have h1 : (40 : ℤ) ≤ ⌊q * 100 + 1/2⌋ := by
    rw [Int.le_floor]
    push_cast
    linarith
  have h2 : (40 : ℚ) ≤ (⌊q * 100 + 1/2⌋ : ℚ) := by exact_mod_cast h1
  linarith

/-! ## Claim C2 — banned exclusion, score floor, geo floor -/

/-- Claim C2 (amended): every returned search result comes from a
non-banned candidate agent, carries a (rounded) score ≥ 0.4, and — when
the request carried a location that is neither empty nor one of the
null-like sentinels — has geo score ≥ 0.3 against that location or
`location_scope = "Global"`.  (For sentinel locations the geo floor is
not enforced; see the counterexample.) -/
theorem C2_search_result_invariants (agents : List AgentRow)
    (statsOf : String → Option AgentStats) (fraudPercentageOf : String → ℚ)
    (request : SearchAgentRequest) (res : List SearchAgentResponse)
    (h : searchPost agents statsOf fraudPercentageOf request = .ok res)
    (r : SearchAgentResponse) (hr : r ∈ res) :
    (∃ a ∈ agents, a.status ≠ .banned ∧ r.id = a.id ∧ r.location_scope = a.location_scope) ∧
      r.score ≥ 4/10 ∧
      (∀ loc, request.location = some loc → loc ≠ "" →
        jsToLower loc ∉ nullLikeLocations →
        r.location_scope = "Global" ∨ calculateGeoScore r.location_scope (some loc) ≥ 3/10) := by
  simp only [searchPost] at h
  split at h
  · exact absurd h (by simp)
  · split at h
    · simp only [Except.ok.injEq] at h
      subst h
      simp at hr
    · split at h
      · simp only [Except.ok.injEq] at h
        subst h
        simp at hr
      · simp only [Except.ok.injEq] at h
        subst h
        obtain ⟨p, hp, hrp⟩ := List.mem_map.mp hr
        have hsorted := List.take_subset _ _ hp
        have hfiltered := mem_sortByScoreDesc hsorted
        obtain ⟨hscored, hcond⟩ := List.mem_filter.mp hfiltered
        obtain ⟨a, ha, hpa⟩ := List.mem_map.mp hscored
        obtain ⟨hagents, hstatus⟩ := List.mem_filter.mp ha
        simp only [decide_eq_true_eq] at hcond hstatus
        obtain ⟨hscore, hgeo⟩ := hcond
        subst hrp
        subst hpa
        refine ⟨⟨a, hagents, hstatus, rfl, rfl⟩, ?_, ?_⟩
        · exact jsRound2_ge_two_fifths hscore
        · intro loc hloc hne hnolike
          have hnorm : normalizeLocation request.location = some loc := by
            rw [hloc]
            simp only [normalizeLocation]
            rw [if_neg (by simpa [String.isEmpty_iff] using hne), if_neg hnolike]
          rw [hnorm] at hgeo
          rcases hgeo with hcontra | hglobal | hge
          · exact absurd hcontra (by simp)
          · exact Or.inl hglobal
          · exact Or.inr hge

/-- The result `searchPost` returns for `agParis` under `reqNull`
(geo factor 0.2 against the literal string `"null"`). -/
def resNull : SearchAgentResponse :=
  { id := "agent-a", name := "Paris Food", caller_id := "provider-1",
    endpoint := "https://a.example", description := "", tags := [],
    intents := ["food.search"], tasks := [], categories := ["food"],
    location_scope := "paris,france", score := 11/20, input_schema := none }

set_option maxRecDepth 4000 in
/-- Claim C2 as stated is false for sentinel locations: the request
carries the location `"null"`, yet the returned agent is not `Global`
and its geo score against that location is 0.2 < 0.3 — the geo floor
is only enforced for locations that survive normalisation. -/
theorem C2_counterexample :
    searchPost [agParis] statsNoneFun fraudZeroFun reqNull = .ok [resNull] ∧
      reqNull.location = some "null" ∧
      resNull.location_scope ≠ "Global" ∧
      calculateGeoScore resNull.location_scope reqNull.location < 3/10 :=
  of_decide_eq_true (by with_unfolding_all rfl)

/-- The result `searchPost` returns for `agParis` under `reqParis`
(geo factor 1.0 for the matching city). -/
def resParis : SearchAgentResponse :=
  { id := "agent-a", name := "Paris Food", caller_id := "provider-1",
    endpoint := "https://a.example", description := "", tags := [],
    intents := ["food.search"], tasks := [], categories := ["food"],
    location_scope := "paris,france", score := 71/100, input_schema := none }

set_option maxRecDepth 4000 in
/-- Witness for `C2_search_result_invariants` on the concrete
located search. -/
theorem C2_search_result_invariants_witness :
    (∃ a ∈ [agParis], a.status ≠ .banned ∧ resParis.id = a.id ∧
        resParis.location_scope = a.location_scope) ∧
      resParis.score ≥ 4/10 ∧
      (∀ loc, reqParis.location = some loc → loc ≠ "" →
        jsToLower loc ∉ nullLikeLocations →
        resParis.location_scope = "Global" ∨
          calculateGeoScore resParis.location_scope (some loc) ≥ 3/10) :=
  C2_search_result_invariants [agParis] statsNoneFun fraudZeroFun reqParis [resParis]
    (of_decide_eq_true (by with_unfolding_all rfl)) resParis (List.mem_singleton.mpr rfl)

/-! ## Claim C9 — null-like location sentinels -/

set_option maxRecDepth 4000 in
/-- Claim C9 as stated is false: a search with the literal location
`"null"` does not behave exactly as if no location had been provided —
the geo factor of the score is computed from the raw string (0.2 for
this located agent) rather than the no-location rule (0.5), so the
returned scores differ (0.55 vs 0.61). -/
theorem C9_counterexample :
    searchPost [agParis] statsNoneFun fraudZeroFun reqNull ≠
      searchPost [agParis] statsNoneFun fraudZeroFun reqNoLoc ∧
      searchPost [agParis] statsNoneFun fraudZeroFun reqNull = .ok [resNull] ∧
      searchPost [agParis] statsNoneFun fraudZeroFun reqNoLoc =
        .ok [{ resNull with score := 61/100 }] :=
  of_decide_eq_true (by with_unfolding_all rfl)

/-- Claim C9 (amended): when the location normalises away (it is
absent, empty, or a null-like sentinel), the geo part of the result
filter is not applied — the pipeline coincides with the geo-filter-free
pipeline.  (The geo *factor* of the score still sees the raw location
string.) -/
theorem C9_sentinel_skips_geo_filter (agents : List AgentRow)
    (statsOf : String → Option AgentStats) (fraudPercentageOf : String → ℚ)
    (request : SearchAgentRequest) (h : normalizeLocation request.location = none) :
    searchPost agents statsOf fraudPercentageOf request =
      searchPostNoGeoFilter agents statsOf fraudPercentageOf request := by
  unfold searchPost searchPostNoGeoFilter
  rw [h]
  dsimp only
  have hfe :
      (fun (p : AgentRow × ℚ) => decide (p.2 ≥ 4/10 ∧
        ((none : Option String) = none ∨ p.1.location_scope = "Global" ∨
          calculateGeoScore p.1.location_scope none ≥ 3/10))) =
      (fun (p : AgentRow × ℚ) => decide (p.2 ≥ 4/10)) := by
    funext p
    rw [decide_eq_decide]
    simp
  rw [hfe]

set_option maxRecDepth 4000 in
/-- Witness for `C9_sentinel_skips_geo_filter` on the concrete
`"null"`-location search. -/
theorem C9_sentinel_skips_geo_filter_witness :
    searchPost [agParis] statsNoneFun fraudZeroFun reqNull =
      searchPostNoGeoFilter [agParis] statsNoneFun fraudZeroFun reqNull :=
  C9_sentinel_skips_geo_filter [agParis] statsNoneFun fraudZeroFun reqNull
    (of_decide_eq_true (by with_unfolding_all rfl))

/-! ## Claim C1 — execution keys on search results -/

/-- Claim C1 (amended): every item returned by the `/search` route
carries an execution key whose `key_expires_at` is exactly 5 minutes
(300 000 ms) after minting time — hence at most 5 minutes in the
future — minted for this consumer and this agent, and signed with the
agent's provider secret whenever that secret is available, with the
registry master secret as the fallback. -/
theorem C1_execution_keys (jwtSecret : String) (providerSecretOf : String → Option String)
    (keyIdOf : ℕ → String) (consumerCallerId : String) (now : ℤ)
    (agents : List AgentRow) (statsOf : String → Option AgentStats)
    (fraudPercentageOf : String → ℚ) (request : SearchAgentRequest)
    (out : List SearchResponseWithKey)
    (h : searchRouteHandler jwtSecret providerSecretOf keyIdOf consumerCallerId now
      agents statsOf fraudPercentageOf request = .ok out)
    (item : SearchResponseWithKey) (hitem : item ∈ out) :
    item.key_expires_at = now + 300 * 1000 ∧
      item.key_expires_at ≤ now + 5 * 60 * 1000 ∧
      item.execution_key.payload.agent_id = item.result.id ∧
      item.execution_key.payload.consumer_caller_id = consumerCallerId ∧
      item.execution_key.signedWith =
        ((if item.result.caller_id ≠ "" then providerSecretOf item.result.caller_id
          else none).getD jwtSecret) := by
  unfold searchRouteHandler at h
  split at h
  · exact absurd h (by simp)
  · simp only [Except.ok.injEq] at h
    subst h
    rw [List.mem_mapIdx] at hitem
    obtain ⟨i, hi, hfi⟩ := hitem
    subst hfi
    refine ⟨rfl, ?_, rfl, rfl, rfl⟩
    show now + EXECUTION_KEY_EXPIRATION * 1000 ≤ now + 5 * 60 * 1000
    unfold EXECUTION_KEY_EXPIRATION
    omega

/-- A provider-secret lookup that always succeeds with the provider's
decrypted signing secret. -/
def someProviderSecret : String → Option String := fun _ => some "provider-signing-secret"

/-- The item the `/search` route returns for `agParis` under
`reqParis` at `now = 0` when the provider secret is available. -/
def itemParis : SearchResponseWithKey :=
  ⟨resParis, ⟨⟨"consumer-1", "agent-a", "kid0"⟩, "provider-signing-secret"⟩, 300000⟩

set_option maxRecDepth 4000 in
/-- Witness for `C1_execution_keys`: the key on the single returned
item expires exactly 5 minutes after `now = 0` and is signed with the
provider's secret. -/
theorem C1_execution_keys_witness :
    itemParis.key_expires_at = (0 : ℤ) + 300 * 1000 ∧
      itemParis.key_expires_at ≤ (0 : ℤ) + 5 * 60 * 1000 ∧
      itemParis.execution_key.payload.agent_id = itemParis.result.id ∧
      itemParis.execution_key.payload.consumer_caller_id = "consumer-1" ∧
      itemParis.execution_key.signedWith =
        ((if itemParis.result.caller_id ≠ "" then someProviderSecret itemParis.result.caller_id
          else none).getD "master-secret") :=
  C1_execution_keys "master-secret" someProviderSecret (fun _ => "kid0")
    "consumer-1" 0 [agParis] statsNoneFun fraudZeroFun reqParis [itemParis]
    (by
      have hs : searchPost [agParis] statsNoneFun fraudZeroFun reqParis =
          Except.ok [resParis] := of_decide_eq_true (by with_unfolding_all rfl)
      unfold searchRouteHandler
      rw [hs]
      with_unfolding_all rfl)
    itemParis (List.mem_singleton.mpr rfl)

/-- A provider-secret lookup that always fails (missing caller row,
non-provider caller, or undecryptable ciphertext). -/
def noProviderSecret : String → Option String := fun _ => none

set_option maxRecDepth 4000 in
/-- Claim C1 as stated is false when the agent's provider secret is
unavailable: the route still returns the result, but the execution key
is signed with the registry master secret — not with any provider
secret of the agent (none exists). -/
theorem C1_counterexample :
    searchRouteHandler "master-secret" noProviderSecret (fun _ => "kid0") "consumer-1" 0
        [agParis] statsNoneFun fraudZeroFun reqParis =
      .ok [{ itemParis with execution_key := ⟨⟨"consumer-1", "agent-a", "kid0"⟩, "master-secret"⟩ }] ∧
      noProviderSecret resParis.caller_id = none ∧
      ({ itemParis with execution_key := ⟨⟨"consumer-1", "agent-a", "kid0"⟩, "master-secret"⟩ } :
        SearchResponseWithKey).execution_key.signedWith = "master-secret" := by
  have hs : searchPost [agParis] statsNoneFun fraudZeroFun reqParis =
      Except.ok [resParis] := of_decide_eq_true (by with_unfolding_all rfl)
  refine ⟨?_, rfl, rfl⟩
  unfold searchRouteHandler
  rw [hs]
  with_unfolding_all rfl

/-! ## Claim C4 — spam blocking -/

/-- Self-rating detection only ever appends to the fraud log. -/
theorem detectSelfRating_state (p : Bool) (st : RegistryState) (c a : String) :
    ((detectSelfRating p st c a).2).feedbacks = st.feedbacks ∧
      ((detectSelfRating p st c a).2).statsRows = st.statsRows ∧
      ((detectSelfRating p st c a).2).agents = st.agents := by
  unfold detectSelfRating
  repeat' split
  all_goals exact ⟨rfl, rfl, rfl⟩

/-- The recent-feedback count only reads the feedback table. -/
theorem countRecentByConsumerAndAgent_congr {st1 st2 : RegistryState} (c a : String) (now : ℤ)
    (h : st1.feedbacks = st2.feedbacks) :
    countRecentByConsumerAndAgent st1 c a now = countRecentByConsumerAndAgent st2 c a now := by
  unfold countRecentByConsumerAndAgent
  rw [h]

/-- In production, spam detection with more than 10 recent feedbacks
blocks and only appends the `SPAM` fraud row. -/
theorem detectSpam_blocks {st : RegistryState} {c a : String} {now : ℤ}
    (h : countRecentByConsumerAndAgent st c a now > 10) :
    detectSpam true st c a now =
      (true, { st with frauds := st.frauds ++ [⟨a, some c, .SPAM⟩] }) := by
  unfold detectSpam
  rw [if_neg (by simp), if_pos h]

/-- In production, with more than 10 prior feedbacks from this consumer
to this agent in the last hour, the fraud analysis blocks, leaving
feedbacks and stats untouched. -/
theorem analyzeFeedback_spam_blocks (logOf : ℕ → ℚ) (st : RegistryState) (c a : String)
    (now : ℤ) (hspam : countRecentByConsumerAndAgent st c a now > 10) :
    (analyzeFeedback true logOf st c a now).2.1 = true ∧
      ((analyzeFeedback true logOf st c a now).2.2).feedbacks = st.feedbacks ∧
      ((analyzeFeedback true logOf st c a now).2.2).statsRows = st.statsRows := by
  obtain ⟨hfb, hsr, _⟩ := detectSelfRating_state true st c a
  have hcount : countRecentByConsumerAndAgent (detectSelfRating true st c a).2 c a now > 10 := by
    rw [countRecentByConsumerAndAgent_congr c a now hfb]
    exact hspam
  unfold analyzeFeedback
  rw [if_neg (by simp)]
  dsimp only
  rw [detectSpam_blocks hcount]
  dsimp only
  rw [if_pos rfl]
  exact ⟨rfl, hfb, hsr⟩

/-- Claim C4 (amended, general rule): in production, a feedback
submission fails with the spam-block error as soon as *more than 10
prior* feedbacks from the same consumer to the same agent lie within
the last hour, and neither the feedback table nor the stats are
updated. -/
theorem C4_spam_blocks (logOf : ℕ → ℚ) (now : ℤ) (st : RegistryState)
    (request : FeedbackRequest)
    (hv : validateFeedbackRequest request = none)
    (hrate : countRecentByConsumer st request.consumer_id now < 60)
    (hagent : (findAgentById st request.agent_id).isSome = true)
    (hspam : countRecentByConsumerAndAgent st request.consumer_id request.agent_id now > 10) :
    (submitFeedback true logOf now st request).1 = .error "Feedback blocked: spam detected" ∧
      ((submitFeedback true logOf now st request).2).statsRows = st.statsRows ∧
      ((submitFeedback true logOf now st request).2).feedbacks = st.feedbacks := by
  obtain ⟨agent, hag⟩ := Option.isSome_iff_exists.mp hagent
  obtain ⟨hblock, hfb, hsr⟩ := analyzeFeedback_spam_blocks logOf st request.consumer_id
    request.agent_id now hspam
  unfold submitFeedback
  rw [hv]
  rw [if_neg (by omega)]
  rw [hag]
  rw [if_pos hblock]
  exact ⟨rfl, hsr, hfb⟩

/-- Whether a pipeline outcome succeeded. -/
def exceptOk (e : Except String Unit) : Bool :=
  match e with
  | .ok _ => true
  | .error _ => false

/-- A production state with one agent and no feedback yet. -/
def stFb : RegistryState :=
  { agents := [agParis], statsRows := [], feedbacks := [], frauds := [] }

/-- A feedback from `consumer-1` (not the owner) to `agent-a`. -/
def fbReqA : FeedbackRequest := ⟨"agent-a", "consumer-1", true, 100, 1/2⟩

/-- `n` copies of `fbReqA`, one millisecond apart (all within one hour
and under the per-minute rate limit). -/
def fbSeq (n : ℕ) : List (ℤ × FeedbackRequest) :=
  (List.range n).map (fun i => ((i : ℤ), fbReqA))

set_option maxRecDepth 8000 in
/-- Claim C4 as stated is false: of 11 feedbacks from one consumer to
one agent within an hour, *all eleven succeed* and the stats reflect
11 updates (the block needs more than 10 *prior* feedbacks, so the
12th is the first to fail, leaving stats at 11). -/
theorem C4_counterexample :
    ((submitFeedbackSeq true logZero stFb (fbSeq 11)).2.map exceptOk) =
        List.replicate 11 true ∧
      (findStatsByAgentId (submitFeedbackSeq true logZero stFb (fbSeq 11)).1 "agent-a").map
        (fun s => s.calls_total) = some 11 ∧
      ((submitFeedbackSeq true logZero stFb (fbSeq 12)).2.map exceptOk) =
        List.replicate 11 true ++ [false] ∧
      (submitFeedbackSeq true logZero stFb (fbSeq 12)).2.getLast? =
        some (.error "Feedback blocked: spam detected") ∧
      (findStatsByAgentId (submitFeedbackSeq true logZero stFb (fbSeq 12)).1 "agent-a").map
        (fun s => s.calls_total) = some 11 :=
  of_decide_eq_true (by with_unfolding_all rfl)

/-- A state in which `consumer-1` already posted 11 feedbacks to
`agent-a` within the last hour. -/
def stSpam : RegistryState :=
  { agents := [agParis], statsRows := []
    feedbacks := (List.range 11).map (fun i => ⟨"agent-a", "consumer-1", true, 100, 1/2, (i : ℤ)⟩)
    frauds := [] }

set_option maxRecDepth 8000 in
/-- Witness for `C4_spam_blocks` at the concrete 11-prior-feedback
state. -/
theorem C4_spam_blocks_witness :
    (submitFeedback true logZero 11 stSpam fbReqA).1 = .error "Feedback blocked: spam detected" ∧
      ((submitFeedback true logZero 11 stSpam fbReqA).2).statsRows = stSpam.statsRows ∧
      ((submitFeedback true logZero 11 stSpam fbReqA).2).feedbacks = stSpam.feedbacks :=
  C4_spam_blocks logZero 11 stSpam fbReqA
    (of_decide_eq_true (by with_unfolding_all rfl))
    (of_decide_eq_true (by with_unfolding_all rfl))
    (of_decide_eq_true (by with_unfolding_all rfl))
    (of_decide_eq_true (by with_unfolding_all rfl))

end Automata














